import Mathlib

/-!
Shallow embedding of the formatter-orchestration core of this repository:
  * src/python/pants/backend/python/lint/black/rules.py
  * src/python/pants/backend/python/lint/pyupgrade/rules.py
  * src/python/pants/engine/internals/options_parsing.py
External collaborators (the rule engine, content store, process sandbox,
pex materialization, the fmt goal's chaining, and small utilities such as
`strip_v2_chroot_path` and `memoized_property`) are not part of the sources;
where a claim depends on them they are modelled from the spec and marked so.
-/

/-! ## Digests and snapshots -/

/-- A content digest.  The engine's `MergeDigests` collaborator is opaque to
the orchestration core; a merged digest is represented symbolically by the
pair of digests that were merged (the Black rule merges exactly two). -/
inductive Digest where
  | leaf (id : Nat)
  | merged (a b : Digest)
deriving DecidableEq, Repr

/-- An immutable content-addressed snapshot, as consumed by the rules:
the rules read `.files`, `.dirs` and `.digest`. -/
structure Snapshot where
  files : List String
  dirs : List String
  digest : Digest
deriving DecidableEq, Repr

/-- `SourceFiles.files` is derived from the snapshot
(`SourceFiles.files` returns `self.snapshot.files` in the engine), so a
`SourceFiles` value is represented by its snapshot alone. -/
abbrev SourceFiles := Snapshot

/-! ## Interpreter constraints (modelled from the spec) -/

/-- Modelled from the spec: `InterpreterConstraints`
(pants/backend/python/util_rules/interpreter_constraints.py is not among the
sources).  A RuntimeConstraint "supports intersection and a
requires-version-≥-X predicate"; it is modelled as a lower bound on the
Python 3 minor version (`minMinor = 8` means ">=3.8"). -/
structure InterpreterConstraints where
  minMinor : Nat
deriving DecidableEq, Repr

/-- Modelled from the spec: `unit_constraint` is the "intersection of all
selected units' compatibility declarations"; a unit with no declaration of
its own uses the global default from `PythonSetup`.  Intersection of
lower bounds is their maximum. -/
def InterpreterConstraints.create_from_compatibility_fields
    (fields : List (Option InterpreterConstraints))
    (default : InterpreterConstraints) : InterpreterConstraints :=
  ⟨(fields.map (fun f => (f.getD default).minMinor)).foldl Nat.max default.minMinor⟩

/-- Modelled from the spec: the "requires-version-≥-X" predicate at Black's
"needs newer runtime" threshold, Python 3.8.  The interpreter universe
argument mirrors the call in `setup_black`; under the lower-bound model the
predicate is decided by the bound itself. -/
def InterpreterConstraints.requires_python38_or_newer
    (ics : InterpreterConstraints) (_universe : List Nat) : Bool :=
  8 ≤ ics.minMinor

/-- The slice of `PythonSetup` the rules read. -/
structure PythonSetup where
  interpreter_universe : List Nat
  default_interpreter_constraints : InterpreterConstraints
deriving DecidableEq, Repr

/-! ## Processes and the execution collaborator -/

structure PexRequest where
  interpreter_constraints : Option InterpreterConstraints
deriving DecidableEq, Repr

/-- An executable venv pex handle, opaque to the orchestration core. -/
structure VenvPex where
  id : Nat
deriving DecidableEq, Repr

/-- The fields of a `VenvPexProcess` the rules set.  `concurrency_available`
is `none` when the rule does not pass the argument. -/
structure VenvPexProcess where
  pex : VenvPex
  argv : List String
  input_digest : Digest
  output_files : List String
  concurrency_available : Option Nat
  description : String
deriving DecidableEq, Repr

/-- A fallible raw process result: exit status, captured byte streams
(bytes are modelled as text; UTF-8 `.decode()` is the identity in the
model), and the output digest. -/
structure FallibleProcessResult where
  exit_code : Int
  stdout : String
  stderr : String
  output_digest : Digest
deriving DecidableEq, Repr

/-- A successful (non-fallible) process result. -/
structure ProcessResult where
  stdout : String
  stderr : String
  output_digest : Digest
deriving DecidableEq, Repr

/-- The error surfaced when a non-fallible result is requested from a
failed execution: it carries the exit status and both captured streams. -/
structure ProcessExecutionFailure where
  exit_code : Int
  stdout : String
  stderr : String
deriving DecidableEq, Repr

/-- Modelled from the spec: the process-execution collaborator distinguishes
"non-zero exit" from success; a rule that requests a non-fallible
`ProcessResult` (as `black_fmt` does) has the engine convert a fallible
result, surfacing a non-zero exit as a fatal failure carrying the captured
stdout/stderr instead of producing a result. -/
def asProcessResult (r : FallibleProcessResult) :
    Except ProcessExecutionFailure ProcessResult :=
  if r.exit_code = 0 then .ok ⟨r.stdout, r.stderr, r.output_digest⟩
  else .error ⟨r.exit_code, r.stdout, r.stderr⟩

/-- The external collaborators a single formatter invocation talks to,
each a fixed request/response service: the source-files snapshot for the
request's field sets, config-file discovery keyed by directories, pex
materialization, process execution, digest-to-snapshot conversion, and the
sandbox chroot prefix appearing in raw tool output. -/
structure Env where
  sourceFiles : SourceFiles
  configFilesFor : List String → Snapshot
  venvPexFor : PexRequest → VenvPex
  execute : VenvPexProcess → FallibleProcessResult
  snapshotOf : Digest → Snapshot
  chroot : String

/-! ## Small utilities -/

/-- `pants.util.strutil.pluralize` (not among the sources; used only in
process descriptions). -/
def pluralize (n : Nat) (word : String) : String :=
  toString n ++ " " ++ (if n == 1 then word else word ++ "s")

/-- Remove every occurrence of `pat` from `s` (fuel-structured so the
kernel can evaluate it). -/
def stripAllAux (pat : List Char) : Nat → List Char → List Char
  | 0, s => s
  | _, [] => []
  | fuel + 1, c :: rest =>
    if pat ≠ [] ∧ pat.isPrefixOf (c :: rest) then
      stripAllAux pat fuel ((c :: rest).drop pat.length)
    else
      c :: stripAllAux pat fuel rest

/-- Modelled from the spec: `pants.util.strutil.strip_v2_chroot_path` (not
among the sources) "strips any sandbox-internal path prefixes from
diagnostic output"; modelled as removal of every occurrence of the
execution-chroot prefix from the decoded text. -/
def strip_v2_chroot_path (chroot : String) (s : String) : String :=
  ⟨stripAllAux chroot.data s.data.length s.data⟩

/-! ## FmtResult (modelled from the spec) -/

/-- Modelled from the spec: `FmtResult` (pants/core/goals/fmt.py is not
among the sources): "{original snapshot, final snapshot, captured stdout,
captured stderr, plugin name, skipped:boolean}".  Field names follow the
constructor calls in the rules (`input` is the original snapshot, `output`
the final one). -/
structure FmtResult where
  input : Snapshot
  output : Snapshot
  stdout : String
  stderr : String
  formatter_name : String
  skipped : Bool
deriving DecidableEq, Repr

/-- The empty snapshot used by skipped results. -/
def emptySnapshot : Snapshot := ⟨[], [], .leaf 0⟩

/-- Modelled from the spec: `FmtResult.skip`: "if skipped=true,
original==final and streams are empty". -/
def FmtResult.skip (formatter_name : String) : FmtResult :=
  ⟨emptySnapshot, emptySnapshot, "", "", formatter_name, true⟩

/-! ## Black rules (src/python/pants/backend/python/lint/black/rules.py) -/

/-- `BlackFieldSet`: source plus the unit's interpreter-constraints
declaration (`none` when the field is unset on the target). -/
structure BlackFieldSet where
  source : String
  interpreter_constraints : Option InterpreterConstraints
deriving DecidableEq, Repr

/-- `BlackRequest`: the plugin's field sets plus the optional prior-chain
snapshot (`prior_formatter_result`, non-null only when Black is not first
in a chain). -/
structure BlackRequest where
  field_sets : List BlackFieldSet
  prior_formatter_result : Option Snapshot
deriving DecidableEq, Repr

/-- `BlackRequest.name = Black.options_scope`. -/
def BlackRequest.name : String := "black"

/-- The slice of the `Black` subsystem the rules read.
`interpreter_constraints_is_default` embeds
`black.options.is_default("interpreter_constraints")`. -/
structure Black where
  skip : Bool
  args : List String
  config : Option String
  interpreter_constraints : InterpreterConstraints
  interpreter_constraints_is_default : Bool
deriving DecidableEq, Repr

/-- `Black.to_pex_request(interpreter_constraints=...)`. -/
def Black.to_pex_request (_black : Black) (ics : InterpreterConstraints) :
    PexRequest :=
  ⟨some ics⟩

/-- `Setup`, the result of `setup_black`. -/
structure Setup where
  process : VenvPexProcess
  original_snapshot : Snapshot
deriving DecidableEq, Repr

/-- `setup_black`: resolves the tool interpreter constraints (unit
constraints when the option is default and 3.8+ is required, the declared
option otherwise), materializes the pex and the source snapshot, picks the
prior-chain snapshot over the fresh one when present, discovers config
files for the chosen snapshot's dirs, merges the two digests, and
assembles the `VenvPexProcess`. -/
def setup_black (request : BlackRequest) (black : Black)
    (python_setup : PythonSetup) (env : Env) : Setup :=
  let all_interpreter_constraints :=
    InterpreterConstraints.create_from_compatibility_fields
      (request.field_sets.map (fun fs => fs.interpreter_constraints))
      python_setup.default_interpreter_constraints
  let tool_interpreter_constraints :=
    if black.interpreter_constraints_is_default
        && all_interpreter_constraints.requires_python38_or_newer
             python_setup.interpreter_universe then
      all_interpreter_constraints
    else
      black.interpreter_constraints
  let black_pex :=
    env.venvPexFor (black.to_pex_request tool_interpreter_constraints)
  let source_files : SourceFiles := env.sourceFiles
  let source_files_snapshot :=
    match request.prior_formatter_result with
    | none => source_files
    | some prior => prior
  let config_files := env.configFilesFor source_files_snapshot.dirs
  let input_digest :=
    Digest.merged source_files_snapshot.digest config_files.digest
  let process : VenvPexProcess :=
    { pex := black_pex
      argv :=
        (match black.config with
         | some c => ["--config", c]
         | none => [])
        ++ ["-W", "\x7bpants_concurrency\x7d"]
        ++ black.args
        ++ source_files_snapshot.files
      input_digest := input_digest
      output_files := source_files_snapshot.files
      concurrency_available := some request.field_sets.length
      description :=
        "Run Black on " ++ pluralize request.field_sets.length "file" ++ "." }
  ⟨process, source_files_snapshot⟩

/-- `black_fmt`: short-circuits on the global skip flag before requesting
`Setup` or any execution; otherwise runs the process, requiring a
non-fallible `ProcessResult` (a non-zero exit is surfaced as an error),
converts the output digest to a snapshot and packages the `FmtResult`,
chroot-stripping both streams.  The second component counts the
process-execution requests issued. -/
def black_fmt (request : BlackRequest) (black : Black)
    (python_setup : PythonSetup) (env : Env) :
    Except ProcessExecutionFailure FmtResult × Nat :=
  if black.skip then
    (.ok (FmtResult.skip BlackRequest.name), 0)
  else
    let setup := setup_black request black python_setup env
    let raw := env.execute setup.process
    match asProcessResult raw with
    | .error e => (.error e, 1)
    | .ok result =>
      let output_snapshot := env.snapshotOf result.output_digest
      (.ok
        { input := setup.original_snapshot
          output := output_snapshot
          stdout := strip_v2_chroot_path env.chroot result.stdout
          stderr := strip_v2_chroot_path env.chroot result.stderr
          formatter_name := BlackRequest.name
          skipped := false }, 1)

/-! ## pyupgrade rules
(src/python/pants/backend/python/lint/pyupgrade/rules.py) -/

structure PyUpgradeFieldSet where
  source : String
deriving DecidableEq, Repr

/-- `PyUpgradeRequest`: field sets plus the optional prior-chain
snapshot. -/
structure PyUpgradeRequest where
  field_sets : List PyUpgradeFieldSet
  prior_formatter_result : Option Snapshot
deriving DecidableEq, Repr

/-- `PyUpgradeRequest.name = PyUpgrade.options_scope`. -/
def PyUpgradeRequest.name : String := "pyupgrade"

/-- The slice of the `PyUpgrade` subsystem the rules read. -/
structure PyUpgrade where
  skip : Bool
  args : List String
deriving DecidableEq, Repr

/-- `PyUpgrade.to_pex_request()` (no interpreter-constraints override). -/
def PyUpgrade.to_pex_request (_pyupgrade : PyUpgrade) : PexRequest :=
  ⟨none⟩

/-- `PyUpgradeResult`, the result of `run_pyupgrade`. -/
structure PyUpgradeResult where
  process_result : FallibleProcessResult
  original_snapshot : Snapshot
deriving DecidableEq, Repr

/-- The `VenvPexProcess` assembled inside `run_pyupgrade`.  Note the source:
`argv=(*pyupgrade.args, *source_files.files)` uses the freshly captured
file list, while `input_digest` and `output_files` use the chosen
(`source_files_snapshot`) one; no config flags, and no
`concurrency_available` argument is passed. -/
def pyupgrade_process (request : PyUpgradeRequest) (pyupgrade : PyUpgrade)
    (env : Env) : VenvPexProcess :=
  let source_files : SourceFiles := env.sourceFiles
  let source_files_snapshot :=
    match request.prior_formatter_result with
    | none => source_files
    | some prior => prior
  { pex := env.venvPexFor pyupgrade.to_pex_request
    argv := pyupgrade.args ++ source_files.files
    input_digest := source_files_snapshot.digest
    output_files := source_files_snapshot.files
    concurrency_available := none
    description :=
      "Run pyupgrade on " ++ pluralize request.field_sets.length "file"
        ++ "." }

/-- `run_pyupgrade`: materializes the pex and the fresh snapshot, picks the
prior-chain snapshot over the fresh one when present, executes the process
(as a fallible result, with no exit-status check), and packages the
`PyUpgradeResult`.  The second component counts the process-execution
requests issued: `run_pyupgrade` always issues exactly one. -/
def run_pyupgrade (request : PyUpgradeRequest) (pyupgrade : PyUpgrade)
    (env : Env) : PyUpgradeResult × Nat :=
  let source_files_snapshot :=
    match request.prior_formatter_result with
    | none => (env.sourceFiles : SourceFiles)
    | some prior => prior
  let result := env.execute (pyupgrade_process request pyupgrade env)
  (⟨result, source_files_snapshot⟩, 1)

/-- `pyupgrade_fmt`: checks the skip flag, then unconditionally converts
the (possibly failed) fallible result's output digest to a snapshot and
packages the `FmtResult`; the streams are only decoded
(`result.process_result.stdout.decode()`), not chroot-stripped. -/
def pyupgrade_fmt (result : PyUpgradeResult) (pyupgrade : PyUpgrade)
    (env : Env) : FmtResult :=
  if pyupgrade.skip then
    FmtResult.skip PyUpgradeRequest.name
  else
    let output_snapshot := env.snapshotOf result.process_result.output_digest
    { input := result.original_snapshot
      output := output_snapshot
      stdout := result.process_result.stdout
      stderr := result.process_result.stderr
      formatter_name := PyUpgradeRequest.name
      skipped := false }

/-- The pyupgrade stage as the rule engine evaluates it: `pyupgrade_fmt`
takes a `PyUpgradeResult` parameter, so the engine computes
`run_pyupgrade` — executing the process — before `pyupgrade_fmt`'s body
(and hence its skip check) runs.  The second component counts the
process-execution requests issued by the stage. -/
def pyupgrade_pipeline (request : PyUpgradeRequest) (pyupgrade : PyUpgrade)
    (env : Env) : FmtResult × Nat :=
  let (result, n) := run_pyupgrade request pyupgrade env
  (pyupgrade_fmt result pyupgrade env, n)

/-! ## Chaining (modelled from the spec) -/

/-- Modelled from the spec: the fmt goal's chain executor
(pants/core/goals/fmt.py is not among the sources).  For a two-plugin
chain, Black then pyupgrade: stage A runs with no prior snapshot, its
output snapshot becomes the `prior result snapshot` of stage B's request,
and the chain's reported final FormatResult takes its final snapshot from
the last stage while "the original snapshot reported in the final
FormatResult is always the snapshot the chain started with".  A failed
stage aborts the chain (later stages do not run). -/
def black_then_pyupgrade (breq : BlackRequest) (black : Black)
    (python_setup : PythonSetup) (preq : PyUpgradeRequest)
    (pyupgrade : PyUpgrade) (env : Env) :
    Option (FmtResult × FmtResult × FmtResult) :=
  match black_fmt { breq with prior_formatter_result := none } black
      python_setup env with
  | (.error _, _) => none
  | (.ok ra, _) =>
    let (rb, _) :=
      pyupgrade_pipeline { preq with prior_formatter_result := some ra.output }
        pyupgrade env
    some (ra, rb, { rb with input := ra.input })

/-! ## Options parsing
(src/python/pants/engine/internals/options_parsing.py) -/

structure OptionsBootstrapper where
  id : Nat
deriving DecidableEq, Repr

structure BuildConfiguration where
  id : Nat
deriving DecidableEq, Repr

/-- The fully resolved `Options` value.  Modelled from the spec: the
options system (pants/option) is an external collaborator; the resolved
value is determined by the bootstrapper and the build configuration. -/
structure Options where
  from_bootstrapper : OptionsBootstrapper
  from_build_config : BuildConfiguration
deriving DecidableEq, Repr

/-- `OptionsBootstrapper.full_options(build_config)` (modelled from the
spec, see `Options`). -/
def full_options (ob : OptionsBootstrapper) (bc : BuildConfiguration) :
    Options :=
  ⟨ob, bc⟩

/-- Modelled from the spec: the cache slot of a `memoized_property`
(pants/util/memo.py is not among the sources): an initially empty slot
filled on first read, with a count of how many times the underlying
computation ran. -/
structure MemoCache where
  cached : Option Options
  computeCount : Nat
deriving DecidableEq, Repr

/-- `_Options`: a frozen dataclass whose declared fields are
`options_bootstrapper` and `build_config`; the memoized `options` value
lives outside the dataclass fields and is carried here as the explicit
cache state. -/
structure _Options where
  options_bootstrapper : OptionsBootstrapper
  build_config : BuildConfiguration
  cache : MemoCache
deriving DecidableEq, Repr

/-- Reading the `options` memoized property: return the cached value if
present, otherwise compute `full_options`, store it, and bump the
computation count.  Returns the value and the (possibly updated) object
state. -/
def _Options.readOptions (o : _Options) : Options × _Options :=
  match o.cache.cached with
  | some v => (v, o)
  | none =>
    let v := full_options o.options_bootstrapper o.build_config
    (v, { o with cache := ⟨some v, o.cache.computeCount + 1⟩ })

/-- Constructing an `_Options` value: the dataclass fields are set, then
`__post_init__` touches the `options` property (asserting it is not None),
eagerly forcing the memoized computation at construction time. -/
def _Options.mk' (ob : OptionsBootstrapper) (bc : BuildConfiguration) :
    _Options :=
  let o0 : _Options := ⟨ob, bc, ⟨none, 0⟩⟩
  (o0.readOptions).2

/-- Python dataclass equality for `_Options`: the generated `__eq__`
compares the tuple of declared dataclass fields
(`options_bootstrapper`, `build_config`); the memoized `options` value is
not a dataclass field and takes no part. -/
def _Options.beq (a b : _Options) : Bool :=
  a.options_bootstrapper == b.options_bootstrapper
    && a.build_config == b.build_config

/-- `SessionValues`: the rule looks up `session_values[OptionsBootstrapper]`. -/
structure SessionValues where
  optionsBootstrapper : OptionsBootstrapper
deriving DecidableEq, Repr

/-- `parse_options`: pulls the `OptionsBootstrapper` out of the session
values and constructs `_Options` from it and the build configuration. -/
def parse_options (build_config : BuildConfiguration)
    (session_values : SessionValues) : _Options :=
  _Options.mk' session_values.optionsBootstrapper build_config

/-! ## Statement helpers and concrete fixtures -/

/-- The snapshot a stage actually works on: the prior-chain snapshot when
the request carries one, the freshly captured one otherwise. -/
def chosen_snapshot (prior : Option Snapshot) (fresh : Snapshot) :
    Snapshot :=
  match prior with
  | none => fresh
  | some p => p

def exSnapFresh : Snapshot := ⟨["a.py"], ["proj"], .leaf 5⟩

def exSnapPrior : Snapshot := ⟨["b.py"], ["prior"], .leaf 6⟩

def exConfig : Snapshot := ⟨["pyproject.toml"], [], .leaf 9⟩

/-- A concrete collaborator environment whose process executions all return
the given exit code and streams. -/
def mkEnv (exitCode : Int) (out err : String) : Env :=
  { sourceFiles := exSnapFresh
    configFilesFor := fun _ => exConfig
    venvPexFor := fun r =>
      ⟨match r.interpreter_constraints with
       | none => 0
       | some i => i.minMinor + 1⟩
    execute := fun _ => ⟨exitCode, out, err, .leaf 7⟩
    snapshotOf := fun d => ⟨["a.py"], ["proj"], d⟩
    chroot := "/cr/" }

def exEnv0 : Env := mkEnv 0 "/cr/a.py ok" ""

def exEnv1 : Env := mkEnv 1 "/cr/a.py bad" "boom"

def exPs : PythonSetup := ⟨[6, 7, 8, 9], ⟨6⟩⟩

def exBlackDefault : Black :=
  ⟨false, ["--quiet"], some "pyproject.toml", ⟨6⟩, true⟩

def exBlackExplicit : Black := ⟨false, [], none, ⟨6⟩, false⟩

def exBlackSkip : Black := ⟨true, [], none, ⟨6⟩, true⟩

def exBReq : BlackRequest := ⟨[⟨"a.py", some ⟨8⟩⟩], none⟩

def exBReqPrior : BlackRequest := ⟨[⟨"b.py", none⟩], some exSnapPrior⟩

def exPu : PyUpgrade := ⟨false, ["--py36-plus"]⟩

def exPuSkip : PyUpgrade := ⟨true, []⟩

def exPReq : PyUpgradeRequest := ⟨[⟨"a.py"⟩], none⟩

def exPReq2 : PyUpgradeRequest := ⟨[⟨"a.py"⟩, ⟨"c.py"⟩], none⟩

def exPReqPrior : PyUpgradeRequest := ⟨[⟨"b.py"⟩], some exSnapPrior⟩

/-! ## Claims -/

/-- Claim C1, counterexample to the claim as stated: with the pyupgrade
plugin's global skip flag set, the stage still issues a process-execution
request (the engine computes the `PyUpgradeResult` rule parameter — running
the process — before `pyupgrade_fmt`'s skip check runs), even though the
returned result has skipped=true. -/
theorem c1_counterexample :
    exPuSkip.skip = true ∧
    (pyupgrade_pipeline exPReq exPuSkip exEnv0).1.skipped = true ∧
    (pyupgrade_pipeline exPReq exPuSkip exEnv0).2 ≠ 0 := by
  decide

/-- Claim C1, amended: with the global skip flag set, both plugins return a
skipped FormatResult; Black short-circuits before any process-execution
request is issued (zero executions), but the pyupgrade stage has already
issued exactly one process execution by the time its skip check runs. -/
theorem c1_skip_short_circuit (breq : BlackRequest) (black : Black)
    (ps : PythonSetup) (preq : PyUpgradeRequest) (pu : PyUpgrade) (env : Env)
    (hb : black.skip = true) (hp : pu.skip = true) :
    black_fmt breq black ps env = (.ok (FmtResult.skip BlackRequest.name), 0) ∧
    (pyupgrade_pipeline preq pu env).1 = FmtResult.skip PyUpgradeRequest.name ∧
    (pyupgrade_pipeline preq pu env).2 = 1 := by
  refine ⟨?_, ?_, ?_⟩ <;>
    simp [black_fmt, pyupgrade_pipeline, run_pyupgrade, pyupgrade_fmt, hb, hp]

/-- Witness for the amended C1 at concrete inputs. -/
theorem c1_skip_short_circuit_witness :
    exBlackSkip.skip = true ∧ exPuSkip.skip = true ∧
    black_fmt exBReq exBlackSkip exPs exEnv0 =
      (.ok (FmtResult.skip BlackRequest.name), 0) ∧
    (pyupgrade_pipeline exPReq exPuSkip exEnv0).1 =
      FmtResult.skip PyUpgradeRequest.name ∧
    (pyupgrade_pipeline exPReq exPuSkip exEnv0).2 = 1 := by
  have h := c1_skip_short_circuit exBReq exBlackSkip exPs exPReq exPuSkip
    exEnv0 (by decide) (by decide)
  exact ⟨by decide, by decide, h.1, h.2.1, h.2.2⟩

/-- Claim C2: when Black's interpreter-constraints option is at its default
value and the intersection of the field sets' declarations requires
Python 3.8 or newer, the pex request is issued at that unit constraint;
in every other case (explicitly configured option, or 3.8 not required) it
is issued at Black's declared constraint unchanged. -/
theorem c2_resolve_runtime (req : BlackRequest) (black : Black)
    (ps : PythonSetup) (env : Env) :
    (black.interpreter_constraints_is_default = true →
      (InterpreterConstraints.create_from_compatibility_fields
          (req.field_sets.map (fun fs => fs.interpreter_constraints))
          ps.default_interpreter_constraints).requires_python38_or_newer
            ps.interpreter_universe = true →
      (setup_black req black ps env).process.pex =
        env.venvPexFor (black.to_pex_request
          (InterpreterConstraints.create_from_compatibility_fields
            (req.field_sets.map (fun fs => fs.interpreter_constraints))
            ps.default_interpreter_constraints))) ∧
    ((black.interpreter_constraints_is_default = false ∨
        (InterpreterConstraints.create_from_compatibility_fields
            (req.field_sets.map (fun fs => fs.interpreter_constraints))
            ps.default_interpreter_constraints).requires_python38_or_newer
              ps.interpreter_universe = false) →
      (setup_black req black ps env).process.pex =
        env.venvPexFor (black.to_pex_request black.interpreter_constraints)) := by
  constructor
  · intro h1 h2
    simp [setup_black, h1, h2]
  · rintro (h | h) <;> simp [setup_black, h]

/-- Witness for C2 at concrete inputs: one field set requiring >=3.8 with
the option at its default (unit constraint wins), and the same request with
an explicitly configured option (declared constraint wins). -/
theorem c2_resolve_runtime_witness :
    exBlackDefault.interpreter_constraints_is_default = true ∧
    (InterpreterConstraints.create_from_compatibility_fields
        (exBReq.field_sets.map (fun fs => fs.interpreter_constraints))
        exPs.default_interpreter_constraints).requires_python38_or_newer
          exPs.interpreter_universe = true ∧
    exBlackExplicit.interpreter_constraints_is_default = false ∧
    (setup_black exBReq exBlackDefault exPs exEnv0).process.pex =
      exEnv0.venvPexFor (exBlackDefault.to_pex_request
        (InterpreterConstraints.create_from_compatibility_fields
          (exBReq.field_sets.map (fun fs => fs.interpreter_constraints))
          exPs.default_interpreter_constraints)) ∧
    (setup_black exBReq exBlackExplicit exPs exEnv0).process.pex =
      exEnv0.venvPexFor
        (exBlackExplicit.to_pex_request exBlackExplicit.interpreter_constraints) := by
  refine ⟨by decide, by decide, by decide, ?_, ?_⟩
  · exact (c2_resolve_runtime exBReq exBlackDefault exPs exEnv0).1
      (by decide) (by decide)
  · exact (c2_resolve_runtime exBReq exBlackExplicit exPs exEnv0).2
      (Or.inl (by decide))

/-- Claim C3: when a request carries a prior-chain snapshot, that snapshot
(not the freshly captured one) is reported as the stage's original snapshot
and used as the process input, for Black and pyupgrade alike; when the
prior result is null, the fresh snapshot is used. -/
theorem c3_prior_snapshot (breq : BlackRequest) (black : Black)
    (ps : PythonSetup) (preq : PyUpgradeRequest) (pu : PyUpgrade) (env : Env)
    (s t : Snapshot) :
    (breq.prior_formatter_result = some s →
      (setup_black breq black ps env).original_snapshot = s ∧
      (setup_black breq black ps env).process.input_digest =
        .merged s.digest (env.configFilesFor s.dirs).digest) ∧
    (breq.prior_formatter_result = none →
      (setup_black breq black ps env).original_snapshot = env.sourceFiles ∧
      (setup_black breq black ps env).process.input_digest =
        .merged env.sourceFiles.digest
          (env.configFilesFor env.sourceFiles.dirs).digest) ∧
    (preq.prior_formatter_result = some t →
      (run_pyupgrade preq pu env).1.original_snapshot = t ∧
      (pyupgrade_process preq pu env).input_digest = t.digest) ∧
    (preq.prior_formatter_result = none →
      (run_pyupgrade preq pu env).1.original_snapshot = env.sourceFiles ∧
      (pyupgrade_process preq pu env).input_digest =
        env.sourceFiles.digest) := by
  refine ⟨fun h => ?_, fun h => ?_, fun h => ?_, fun h => ?_⟩ <;>
    simp [setup_black, run_pyupgrade, pyupgrade_process, h]

/-- Witness for C3 at concrete inputs, covering the prior-carrying and the
prior-free case for both plugins. -/
theorem c3_prior_snapshot_witness :
    exBReqPrior.prior_formatter_result = some exSnapPrior ∧
    exPReqPrior.prior_formatter_result = some exSnapPrior ∧
    ((setup_black exBReqPrior exBlackExplicit exPs exEnv0).original_snapshot =
        exSnapPrior ∧
      (setup_black exBReqPrior exBlackExplicit exPs exEnv0).process.input_digest =
        .merged exSnapPrior.digest
          (exEnv0.configFilesFor exSnapPrior.dirs).digest) ∧
    ((run_pyupgrade exPReqPrior exPu exEnv0).1.original_snapshot =
        exSnapPrior ∧
      (pyupgrade_process exPReqPrior exPu exEnv0).input_digest =
        exSnapPrior.digest) ∧
    (setup_black exBReq exBlackExplicit exPs exEnv0).original_snapshot =
      exEnv0.sourceFiles ∧
    (run_pyupgrade exPReq exPu exEnv0).1.original_snapshot =
      exEnv0.sourceFiles := by
  have h := c3_prior_snapshot exBReqPrior exBlackExplicit exPs exPReqPrior
    exPu exEnv0 exSnapPrior exSnapPrior
  have h2 := c3_prior_snapshot exBReq exBlackExplicit exPs exPReq
    exPu exEnv0 exSnapPrior exSnapPrior
  exact ⟨rfl, rfl, h.1 rfl, h.2.2.1 rfl, (h2.2.1 rfl).1, (h2.2.2.2 rfl).1⟩

def c4ra : FmtResult :=
  ⟨exSnapFresh, ⟨["a.py"], ["proj"], .leaf 7⟩, "a.py ok", "", "black", false⟩

def c4rb : FmtResult :=
  ⟨⟨["a.py"], ["proj"], .leaf 7⟩, ⟨["a.py"], ["proj"], .leaf 7⟩,
    "/cr/a.py ok", "", "pyupgrade", false⟩

def c4rep : FmtResult :=
  ⟨exSnapFresh, ⟨["a.py"], ["proj"], .leaf 7⟩, "/cr/a.py ok", "",
    "pyupgrade", false⟩

/-- Claim C4: in a two-plugin chain (Black then pyupgrade, neither
skipped), each stage's FormatResult has its original equal to the snapshot
that stage received as input (the fresh snapshot for the first stage, the
first stage's output for the second), and the chain's reported final
FormatResult has original equal to the snapshot before the first stage ran
and final equal to the second stage's output snapshot. -/
theorem c4_chain_original_final (breq : BlackRequest) (black : Black)
    (ps : PythonSetup) (preq : PyUpgradeRequest) (pu : PyUpgrade) (env : Env)
    (hA : black.skip = false) (hB : pu.skip = false) :
    ∀ ra rb rep,
      black_then_pyupgrade breq black ps preq pu env = some (ra, rb, rep) →
        ra.input = env.sourceFiles ∧ rb.input = ra.output ∧
        rep.input = env.sourceFiles ∧ rep.output = rb.output := by
  intro ra rb rep h
  simp only [black_then_pyupgrade, black_fmt, hA, Bool.false_eq_true,
    if_false] at h
  rcases hm : asProcessResult
      (env.execute (setup_black { breq with prior_formatter_result := none }
        black ps env).process) with e | result
  · rw [hm] at h
    simp at h
  · rw [hm] at h
    simp only [pyupgrade_pipeline, run_pyupgrade, pyupgrade_fmt, hB,
      Bool.false_eq_true, if_false, Option.some.injEq, Prod.mk.injEq] at h
    obtain ⟨h1, h2, h3⟩ := h
    subst h1 h2 h3
    refine ⟨?_, ?_, ?_, ?_⟩ <;> simp [setup_black]

/-- Witness for C4 at concrete inputs. -/
theorem c4_chain_original_final_witness :
    exBlackDefault.skip = false ∧ exPu.skip = false ∧
    black_then_pyupgrade exBReq exBlackDefault exPs exPReq exPu exEnv0 =
      some (c4ra, c4rb, c4rep) ∧
    (c4ra.input = exEnv0.sourceFiles ∧ c4rb.input = c4ra.output ∧
      c4rep.input = exEnv0.sourceFiles ∧ c4rep.output = c4rb.output) := by
  refine ⟨by decide, by decide, by decide, ?_⟩
  exact c4_chain_original_final exBReq exBlackDefault exPs exPReq exPu exEnv0
    (by decide) (by decide) c4ra c4rb c4rep (by decide)

def exPR : PyUpgradeResult := ⟨⟨1, "/cr/a.py bad", "boom", .leaf 7⟩, exSnapPrior⟩

/-- Claim C5, counterexample to the claim as stated: a pyupgrade process
result with non-zero exit status is not treated as fatal — the stage still
produces a (non-skipped) FormatResult whose final snapshot comes from the
failed process's output digest. -/
theorem c5_counterexample :
    (exEnv1.execute (pyupgrade_process exPReq exPu exEnv1)).exit_code ≠ 0 ∧
    (pyupgrade_pipeline exPReq exPu exEnv1).1.skipped = false ∧
    (pyupgrade_pipeline exPReq exPu exEnv1).1.output =
      exEnv1.snapshotOf
        (exEnv1.execute (pyupgrade_process exPReq exPu exEnv1)).output_digest := by
  decide

/-- Claim C5, amended: Black requests a non-fallible process result, so a
non-zero exit aborts its stage with a failure carrying the captured
stdout/stderr and no FormatResult; pyupgrade deliberately requests a
fallible result and packages a FormatResult from the output digest
regardless of the exit status (pyupgrade exits non-zero when it rewrites
files). -/
theorem c5_failure_policy (req : BlackRequest) (black : Black)
    (ps : PythonSetup) (env : Env) (r : PyUpgradeResult) (pu : PyUpgrade)
    (hskip : black.skip = false)
    (hexit : (env.execute (setup_black req black ps env).process).exit_code ≠ 0)
    (hpskip : pu.skip = false) :
    black_fmt req black ps env =
      (.error ⟨(env.execute (setup_black req black ps env).process).exit_code,
               (env.execute (setup_black req black ps env).process).stdout,
               (env.execute (setup_black req black ps env).process).stderr⟩,
       1) ∧
    (pyupgrade_fmt r pu env).skipped = false ∧
    (pyupgrade_fmt r pu env).output =
      env.snapshotOf r.process_result.output_digest := by
  refine ⟨?_, ?_, ?_⟩ <;>
    simp [black_fmt, hskip, asProcessResult, hexit, pyupgrade_fmt, hpskip]

/-- Witness for the amended C5 at concrete inputs. -/
theorem c5_failure_policy_witness :
    exBlackDefault.skip = false ∧
    (exEnv1.execute (setup_black exBReq exBlackDefault exPs exEnv1).process).exit_code ≠ 0 ∧
    exPu.skip = false ∧
    black_fmt exBReq exBlackDefault exPs exEnv1 =
      (.error ⟨1, "/cr/a.py bad", "boom"⟩, 1) ∧
    (pyupgrade_fmt exPR exPu exEnv1).skipped = false ∧
    (pyupgrade_fmt exPR exPu exEnv1).output =
      exEnv1.snapshotOf exPR.process_result.output_digest := by
  have h := c5_failure_policy exBReq exBlackDefault exPs exEnv1 exPR exPu
    (by decide) (by decide) (by decide)
  exact ⟨by decide, by decide, by decide, h.1, h.2.1, h.2.2⟩

/-- Claim C6, counterexample to the claim as stated: the pyupgrade process
sets no concurrency hint (the claim requires it to equal the number of
field sets), and when a prior-chain snapshot is carried its argument vector
ends with the freshly captured file list, not the chosen snapshot's. -/
theorem c6_counterexample :
    (pyupgrade_process exPReq2 exPu exEnv0).concurrency_available ≠
      some exPReq2.field_sets.length ∧
    (pyupgrade_process exPReqPrior exPu exEnv0).argv ≠
      exPu.args ++
        (chosen_snapshot exPReqPrior.prior_formatter_result
          exEnv0.sourceFiles).files := by
  decide

/-- Claim C6, amended: the Black process is assembled exactly as the claim
states (config flags, then the fixed flags, then user args, then the chosen
snapshot's files; output files = that file list; concurrency hint = number
of field sets; input = the merged digest).  The pyupgrade process instead
appends the freshly captured file list to the user args, passes no
concurrency hint, and uses the chosen snapshot's digest alone as input;
only its output files are the chosen snapshot's file list. -/
theorem c6_process_assembly (breq : BlackRequest) (black : Black)
    (ps : PythonSetup) (preq : PyUpgradeRequest) (pu : PyUpgrade)
    (env : Env) :
    ((setup_black breq black ps env).process.argv =
        (match black.config with
         | some c => ["--config", c]
         | none => [])
        ++ ["-W", "\x7bpants_concurrency\x7d"] ++ black.args
        ++ (chosen_snapshot breq.prior_formatter_result env.sourceFiles).files ∧
      (setup_black breq black ps env).process.output_files =
        (chosen_snapshot breq.prior_formatter_result env.sourceFiles).files ∧
      (setup_black breq black ps env).process.concurrency_available =
        some breq.field_sets.length ∧
      (setup_black breq black ps env).process.input_digest =
        .merged
          (chosen_snapshot breq.prior_formatter_result env.sourceFiles).digest
          (env.configFilesFor
            (chosen_snapshot breq.prior_formatter_result
              env.sourceFiles).dirs).digest) ∧
    ((pyupgrade_process preq pu env).argv =
        pu.args ++ env.sourceFiles.files ∧
      (pyupgrade_process preq pu env).output_files =
        (chosen_snapshot preq.prior_formatter_result env.sourceFiles).files ∧
      (pyupgrade_process preq pu env).concurrency_available = none ∧
      (pyupgrade_process preq pu env).input_digest =
        (chosen_snapshot preq.prior_formatter_result
          env.sourceFiles).digest) := by
  rcases breq with ⟨bfs, bprior⟩
  rcases preq with ⟨pfs, pprior⟩
  cases bprior <;> cases pprior <;>
    simp [setup_black, pyupgrade_process, chosen_snapshot]

/-- Claim C7, counterexample to the claim as stated: the pyupgrade process
input digest is the chosen snapshot's digest alone — it is not the merge of
that digest with a discovered configuration snapshot's digest (no config
discovery happens in `run_pyupgrade` at all). -/
theorem c7_counterexample :
    (pyupgrade_process exPReqPrior exPu exEnv0).input_digest ≠
      .merged
        (chosen_snapshot exPReqPrior.prior_formatter_result
          exEnv0.sourceFiles).digest
        (exEnv0.configFilesFor
          (chosen_snapshot exPReqPrior.prior_formatter_result
            exEnv0.sourceFiles).dirs).digest := by
  decide

/-- Claim C7, amended: for Black, configuration files are discovered scoped
to the chosen snapshot's directories and the process input digest is the
merge of the chosen snapshot's digest with the discovered configuration
snapshot's digest; for pyupgrade, no configuration discovery occurs and the
process input digest is the chosen snapshot's digest alone. -/
theorem c7_config_discovery_and_merge (breq : BlackRequest) (black : Black)
    (ps : PythonSetup) (preq : PyUpgradeRequest) (pu : PyUpgrade)
    (env : Env) :
    (setup_black breq black ps env).process.input_digest =
      .merged
        (chosen_snapshot breq.prior_formatter_result env.sourceFiles).digest
        (env.configFilesFor
          (chosen_snapshot breq.prior_formatter_result
            env.sourceFiles).dirs).digest ∧
    (pyupgrade_process preq pu env).input_digest =
      (chosen_snapshot preq.prior_formatter_result env.sourceFiles).digest := by
  rcases breq with ⟨bfs, bprior⟩
  rcases preq with ⟨pfs, pprior⟩
  cases bprior <;> cases pprior <;>
    simp [setup_black, pyupgrade_process, chosen_snapshot]

/-- Claim C8, counterexample to the claim as stated: on a successful
pyupgrade execution whose stdout contains the sandbox chroot prefix, the
reported stdout still contains that prefix — it differs from the
prefix-stripped text the claim requires. -/
theorem c8_counterexample :
    (exEnv0.execute (pyupgrade_process exPReq exPu exEnv0)).exit_code = 0 ∧
    (pyupgrade_pipeline exPReq exPu exEnv0).1.stdout ≠
      strip_v2_chroot_path exEnv0.chroot
        (exEnv0.execute (pyupgrade_process exPReq exPu exEnv0)).stdout := by
  decide

/-- Claim C8, amended: Black's FormatResult carries both captured streams
decoded and with the execution-chroot path prefix stripped; pyupgrade's
FormatResult carries the streams decoded only, with no prefix
stripping. -/
theorem c8_stream_normalization (req : BlackRequest) (black : Black)
    (ps : PythonSetup) (env : Env) (r : PyUpgradeResult) (pu : PyUpgrade)
    (hskip : black.skip = false)
    (hexit : (env.execute (setup_black req black ps env).process).exit_code = 0)
    (hpskip : pu.skip = false) :
    (∀ res, (black_fmt req black ps env).1 = .ok res →
      res.stdout = strip_v2_chroot_path env.chroot
          (env.execute (setup_black req black ps env).process).stdout ∧
      res.stderr = strip_v2_chroot_path env.chroot
          (env.execute (setup_black req black ps env).process).stderr) ∧
    (pyupgrade_fmt r pu env).stdout = r.process_result.stdout ∧
    (pyupgrade_fmt r pu env).stderr = r.process_result.stderr := by
  refine ⟨fun res h => ?_, ?_, ?_⟩
  · simp only [black_fmt, hskip, Bool.false_eq_true, if_false,
      asProcessResult, hexit, if_pos] at h
    obtain ⟨rfl⟩ := h
    exact ⟨rfl, rfl⟩
  · simp [pyupgrade_fmt, hpskip]
  · simp [pyupgrade_fmt, hpskip]

def c8res : FmtResult :=
  ⟨exSnapFresh, ⟨["a.py"], ["proj"], .leaf 7⟩, "a.py ok", "", "black", false⟩

/-- Witness for the amended C8 at concrete inputs: Black's stdout has the
chroot prefix `/cr/` removed, pyupgrade's is passed through verbatim. -/
theorem c8_stream_normalization_witness :
    exBlackDefault.skip = false ∧
    (exEnv0.execute (setup_black exBReq exBlackDefault exPs exEnv0).process).exit_code = 0 ∧
    exPu.skip = false ∧
    (black_fmt exBReq exBlackDefault exPs exEnv0).1 = .ok c8res ∧
    (c8res.stdout = strip_v2_chroot_path exEnv0.chroot
        (exEnv0.execute (setup_black exBReq exBlackDefault exPs exEnv0).process).stdout ∧
      c8res.stderr = strip_v2_chroot_path exEnv0.chroot
        (exEnv0.execute (setup_black exBReq exBlackDefault exPs exEnv0).process).stderr) ∧
    (pyupgrade_fmt exPR exPu exEnv0).stdout = exPR.process_result.stdout ∧
    (pyupgrade_fmt exPR exPu exEnv0).stderr = exPR.process_result.stderr := by
  have h := c8_stream_normalization exBReq exBlackDefault exPs exEnv0 exPR
    exPu (by decide) (by decide) (by decide)
  exact ⟨by decide, by decide, by decide, rfl, h.1 c8res rfl, h.2.1, h.2.2⟩

/-- Claim C9: every `_Options` value has its full options computed eagerly
at construction time (the `__post_init__` assertion touches the memoized
property), and a later read of the `options` attribute returns the
already-cached value with no further computation and no state change. -/
theorem c9_eager_options (ob : OptionsBootstrapper)
    (bc : BuildConfiguration) :
    (_Options.mk' ob bc).cache.cached = some (full_options ob bc) ∧
    (_Options.mk' ob bc).cache.computeCount = 1 ∧
    (_Options.mk' ob bc).readOptions =
      (full_options ob bc, _Options.mk' ob bc) := by
  exact ⟨rfl, rfl, rfl⟩

/-- Claim C10: `parse_options` is deterministic and the identity of its
result is decided only by the `OptionsBootstrapper` taken from the session
values and the `BuildConfiguration`: equal construction inputs give results
that compare equal, and dataclass equality on `_Options` compares exactly
the two declared fields, with the derived options value playing no
part. -/
theorem c10_parse_options_identity (bc1 bc2 : BuildConfiguration)
    (sv1 sv2 : SessionValues) (hb : bc1 = bc2)
    (hs : sv1.optionsBootstrapper = sv2.optionsBootstrapper) :
    parse_options bc1 sv1 = parse_options bc2 sv2 ∧
    _Options.beq (parse_options bc1 sv1) (parse_options bc2 sv2) = true ∧
    ∀ a b : _Options, a.options_bootstrapper = b.options_bootstrapper →
      a.build_config = b.build_config → _Options.beq a b = true := by
  subst hb
  refine ⟨?_, ?_, ?_⟩
  · simp [parse_options, hs]
  · simp [parse_options, _Options.beq, hs]
  · intro a b h1 h2
    simp [_Options.beq, h1, h2]

/-- Witness for C10 at concrete inputs; the last conjunct shows two
`_Options` values that differ only in the memoized cache still comparing
equal. -/
theorem c10_parse_options_identity_witness :
    (⟨1⟩ : BuildConfiguration) = ⟨1⟩ ∧
    (⟨⟨2⟩⟩ : SessionValues).optionsBootstrapper =
      (⟨⟨2⟩⟩ : SessionValues).optionsBootstrapper ∧
    parse_options ⟨1⟩ ⟨⟨2⟩⟩ = parse_options ⟨1⟩ ⟨⟨2⟩⟩ ∧
    _Options.beq (parse_options ⟨1⟩ ⟨⟨2⟩⟩) (parse_options ⟨1⟩ ⟨⟨2⟩⟩) = true ∧
    _Options.beq ⟨⟨2⟩, ⟨1⟩, ⟨none, 0⟩⟩
      ⟨⟨2⟩, ⟨1⟩, ⟨some (full_options ⟨2⟩ ⟨1⟩), 5⟩⟩ = true := by
  have h := c10_parse_options_identity ⟨1⟩ ⟨1⟩ ⟨⟨2⟩⟩ ⟨⟨2⟩⟩ rfl rfl
  exact ⟨rfl, rfl, h.1, h.2.1, h.2.2 _ _ rfl rfl⟩
